import Mathlib

/-!
Shallow embedding of the InkyPi renderer plugins:
`src/plugins/url_renderer/url_renderer.py` (headless-chromium screenshot
pipeline) and `src/plugins/website_renderer/website_renderer.py`
(HTML-rewriting renderer).

External effects (the chromium subprocess, the filesystem state of the
transient screenshot file, PIL image loading, HTTP fetching, the
HTML-to-image backend) are modelled by explicit environment records that
fix the outcome of each effectful call of a single invocation; the control
flow, classification logic and arithmetic of the plugins are translated
directly from the source.  Python floats in `_resize_full_page` are
modelled by rationals, machine-level `int()` truncation by `Int.floor`
(all quantities involved are nonnegative, where truncation and floor
agree).
-/

namespace InkyPi

/-- A raster image: width, height and an abstract pixel buffer.  PIL images
are opaque pixel containers; the plugin code observes only their size and
passes the buffer through. -/
structure Img where
  width : Nat
  height : Nat
  data : List Nat
deriving DecidableEq

/-- A value stored in the string-keyed settings mapping.  Settings arrive
from the web form as strings; `website_renderer.py` line 14 additionally
stores a parsed integer back into the mapping. -/
inductive Val where
  | str (s : String)
  | num (n : Int)
deriving DecidableEq

/-- The settings mapping (a Python dict with unique keys), as an
association list. -/
abbrev Settings := List (String × Val)

/-- Python `dict.get(k)` (also `dict.get(k, default)` via `Option.getD`). -/
def Settings.get : Settings → String → Option Val
  | [], _ => none
  | (k2, v) :: rest, k => if k2 = k then some v else Settings.get rest k

/-- Python dict assignment `settings[k] = v`: replace the value under an
existing key, otherwise append the new binding. -/
def Settings.insert : Settings → String → Val → Settings
  | [], k, v => [(k, v)]
  | (k2, v2) :: rest, k, v =>
    if k2 = k then (k, v) :: rest else (k2, v2) :: Settings.insert rest k v

/-- Reading a string-typed setting: the spec's settings table (§6) types all
incoming settings as strings; a missing key (or a non-string value) reads
as absent. -/
def pyGetStr (settings : Settings) (k : String) : Option String :=
  match Settings.get settings k with
  | some (.str s) => some s
  | _ => none

/-- Python `s.startswith(p)`, computed on the character lists (the builtin
`String.startsWith` is byte-position based and does not reduce in the
kernel). -/
def strStartsWith (s p : String) : Bool := p.data.isPrefixOf s.data

/-- Python `int(s)` on a string: strip surrounding whitespace, then an
optional sign followed by at least one decimal digit; anything else raises
`ValueError` (modelled as `none`). -/
def pyStrToInt (s : String) : Option Int :=
  let t := ((s.data.dropWhile Char.isWhitespace).reverse.dropWhile Char.isWhitespace).reverse
  let signDigits : Int × List Char :=
    match t with
    | '+' :: rest => (1, rest)
    | '-' :: rest => (-1, rest)
    | l => (1, l)
  let ds := signDigits.2
  if ds ≠ [] ∧ ds.all Char.isDigit then
    some (signDigits.1 * (ds.foldl (fun a c => a * 10 + ((c.toNat - '0'.toNat : Nat) : Int)) 0))
  else none

/-- Python `int(v)` on a settings value: an int passes through, a string is
parsed, a malformed string raises `ValueError` (modelled as `none`). -/
def pyToInt : Val → Option Int
  | .num n => some n
  | .str s => pyStrToInt s

/-- The (scheme, netloc, path) components of `urllib.parse.urlparse`, the
only components the plugin reads. -/
structure ParsedUrl where
  scheme : String
  netloc : String
  path : String
deriving DecidableEq

/-- Characters admissible in a URL scheme after the leading letter
(CPython `urllib.parse.scheme_chars`). -/
def isSchemeChar (c : Char) : Bool := c.isAlphanum || c = '+' || c = '-' || c = '.'

/-- CPython scheme splitting: the text before the first colon becomes the
scheme when it is nonempty, starts with an ASCII letter and consists of
scheme characters; otherwise the scheme is empty and the URL is unchanged. -/
def pySplitScheme (url : String) : String × String :=
  match url.data.findIdx? (fun c => c = ':') with
  | none => ("", url)
  | some i =>
    if (i != 0) && (url.data.headD ' ').isAlpha && (url.data.take i).all isSchemeChar then
      (⟨(url.data.take i).map Char.toLower⟩, ⟨url.data.drop (i + 1)⟩)
    else ("", url)

/-- A character ending the netloc component (CPython `_splitnetloc`
delimiters). -/
def isNetlocEnd (c : Char) : Bool := c = '/' || c = '?' || c = '#'

/-- CPython `urllib.parse.urlparse`, restricted to the (scheme, netloc,
path) triple the plugin inspects: split off the scheme; a remainder
starting with `//` contributes a netloc running to the first `/`, `?` or
`#`; the path is what remains before any fragment or query. -/
def pyUrlparse (url : String) : ParsedUrl :=
  let sr := pySplitScheme url
  let scheme := sr.1
  let cs := sr.2.data
  let nl : List Char × List Char :=
    if cs.take 2 = ['/', '/'] then
      ((cs.drop 2).takeWhile (fun c => !isNetlocEnd c),
       (cs.drop 2).dropWhile (fun c => !isNetlocEnd c))
    else ([], cs)
  let afterFragment := nl.2.takeWhile (fun c => c != '#')
  let path := afterFragment.takeWhile (fun c => c != '?')
  ⟨scheme, ⟨nl.1⟩, ⟨path⟩⟩

/-- URL validation and normalization at the top of
`URLRenderer.generate_image` (url_renderer.py lines 23-34): a missing or
empty (falsy) setting raises `RuntimeError("URL not provided.")`; a parsed
URL missing scheme or netloc is prefixed with `https://` when it has no
scheme but a nonempty path, and otherwise raises
`RuntimeError("Invalid URL provided.")`. -/
def normalizeUrl (urlSetting : Option String) : Except String String :=
  match urlSetting with
  | none => .error "URL not provided."
  | some url =>
    if url = "" then .error "URL not provided."
    else
      let parsed := pyUrlparse url
      if parsed.scheme = "" ∨ parsed.netloc = "" then
        if parsed.scheme = "" ∧ parsed.path ≠ "" then
          .ok ("https://" ++ url)
        else
          .error "Invalid URL provided."
      else .ok url

/-- The device-configuration collaborator: `get_resolution()` and
`get_config("orientation")` (absent key reads as `none`). -/
structure DeviceConfig where
  resolution : Nat × Nat
  orientation : Option String

namespace URLRenderer

/-- url_renderer.py lines 37-39: the target dimensions are the device
resolution, with the pair swapped when the configured orientation is
`"vertical"`. -/
def effective_dimensions (device : DeviceConfig) : Nat × Nat :=
  if device.orientation = some "vertical" then
    (device.resolution.2, device.resolution.1)
  else
    device.resolution

/-- The screenshot options dict built at url_renderer.py lines 46-49:
`zoom` (string-typed zoom level) and `full_page`. -/
structure ShotOptions where
  zoom : String
  full_page : Bool
deriving DecidableEq

/-- Outcome of the `subprocess.run` call: normal completion with an exit
code and captured stderr, `TimeoutExpired` after the 30-second bound, or a
spawn failure (e.g. the browser binary is missing). -/
inductive RunOutcome where
  | completed (returncode : Int) (stderr : String)
  | timeout
  | spawnFailure (msg : String)
deriving DecidableEq

/-- Environment of one `take_webpage_screenshot` invocation: the transient
path handed out by `tempfile`, the subprocess outcome, whether the
transient path exists on disk once the subprocess call returns or raises
(the external process owns the file's content in between), and the outcome
of `Image.open` if it is attempted. -/
structure CaptureEnv where
  tmpPath : String
  runOutcome : RunOutcome
  fileExists : Bool
  loadResult : Except String Img

/-- The Python exceptions that can arise inside the try-block of
`take_webpage_screenshot`. -/
inductive PyExc where
  | timeoutExpired (cmd : List String)
  | oserror (msg : String)
  | imageError (msg : String)

/-- `str(e)` for the exceptions above (the timeout text abbreviates
Python's `Command '...' timed out after 30 seconds`). -/
def pyExcStr : PyExc → String
  | .timeoutExpired _ => "Command timed out after 30 seconds"
  | .oserror m => m
  | .imageError m => m

/-- url_renderer.py lines 76-88: the chromium argument list, with
`--force-viewport-sizing` appended exactly when a full-page capture was
requested. -/
def screenshot_command (url imgFilePath : String) (width height : Nat)
    (zoom : String) (fullPage : Bool) : List String :=
  ["chromium-browser", url, "--headless=old",
   "--screenshot=" ++ imgFilePath,
   "--window-size=" ++ toString width ++ "," ++ toString height,
   "--no-sandbox", "--disable-gpu",
   "--disable-software-rasterizer",
   "--disable-dev-shm-usage", "--hide-scrollbars",
   "--force-device-scale-factor=" ++ zoom] ++
  (if fullPage then ["--force-viewport-sizing"] else [])

/-- url_renderer.py lines 115-132 (`_resize_full_page`): scale both axes by
`min(desired_width / img_width, desired_height / img_height)` and truncate
to integers.  `resample` stands for PIL's LANCZOS resampling engine, whose
pixel output is opaque to the plugin; only the requested output size is
the plugin's own arithmetic. -/
def resize_full_page (resample : Img → Nat → Nat → List Nat)
    (image : Img) (dimensions : Nat × Nat) : Img :=
  let img_width := image.width
  let img_height := image.height
  let desired_width := dimensions.1
  let desired_height := dimensions.2
  let width_ratio : ℚ := (desired_width : ℚ) / (img_width : ℚ)
  let height_ratio : ℚ := (desired_height : ℚ) / (img_height : ℚ)
  let ratio := min width_ratio height_ratio
  let new_width := (⌊(img_width : ℚ) * ratio⌋).toNat
  let new_height := (⌊(img_height : ℚ) * ratio⌋).toNat
  ⟨new_width, new_height, resample image new_width new_height⟩

/-- Observable result of one `take_webpage_screenshot` call: the returned
image (or `none`), the log entries emitted, whether the transient file
still exists on disk after the call returns, and the command line that was
run. -/
structure ShotResult where
  image : Option Img
  log : List String
  fileExistsAfter : Bool
  command : List String
deriving DecidableEq

/-- The try-block of `take_webpage_screenshot` (url_renderer.py lines
68-108): create the transient file, run the command, classify the outcome
(lines 91-97), load the image, resize for full-page captures, and remove
the transient file.  An `.error` is a raised Python exception, paired with
the transient-file state at raise time (the handler does not touch the
filesystem). -/
def take_webpage_screenshot_body (resample : Img → Nat → Nat → List Nat)
    (env : CaptureEnv) (url : String) (dimensions : Nat × Nat)
    (options : ShotOptions) : Except (PyExc × Bool) ShotResult :=
  let width := dimensions.1
  let height := dimensions.2
  let zoom := options.zoom
  let full_page := options.full_page
  let img_file_path := env.tmpPath
  let command := screenshot_command url img_file_path width height zoom full_page
  match env.runOutcome with
  | .timeout => .error (.timeoutExpired command, env.fileExists)
  | .spawnFailure m => .error (.oserror m, env.fileExists)
  | .completed returncode stderr =>
    if returncode ≠ 0 ∨ env.fileExists = false then
      .ok ⟨none, ["Failed to take screenshot:", stderr], env.fileExists, command⟩
    else
      match env.loadResult with
      | .error m => .error (.imageError m, env.fileExists)
      | .ok image0 =>
        let image := if full_page then resize_full_page resample image0 dimensions
                     else image0
        .ok ⟨some image, [], false, command⟩

/-- `take_webpage_screenshot` (url_renderer.py lines 60-113): the try-block
above with the `except Exception` handler of lines 110-112, which logs the
exception and falls through to `return image` (still `None` on every
raising path of the model). -/
def take_webpage_screenshot (resample : Img → Nat → Nat → List Nat)
    (env : CaptureEnv) (url : String) (dimensions : Nat × Nat)
    (options : ShotOptions) : ShotResult :=
  match take_webpage_screenshot_body resample env url dimensions options with
  | .ok r => r
  | .error (e, fe) =>
    ⟨none, ["Failed to take webpage screenshot: " ++ pyExcStr e], fe,
     screenshot_command url env.tmpPath dimensions.1 dimensions.2
       options.zoom options.full_page⟩

/-- `URLRenderer.generate_image` (url_renderer.py lines 21-58): normalize
the URL (raising outside the try-block), resolve dimensions and options,
take the screenshot, and convert a missing image into the single
user-facing `RuntimeError` — the inner
`RuntimeError("Failed to capture screenshot.")` is caught by the
function's own handler and re-raised as
`RuntimeError("Screenshot generation failed: " + str(e))`. -/
def generate_image (resample : Img → Nat → Nat → List Nat)
    (settings : Settings) (device : DeviceConfig) (env : CaptureEnv) :
    Except String Img :=
  match normalizeUrl (pyGetStr settings "url") with
  | .error e => .error e
  | .ok url =>
    let dimensions := effective_dimensions device
    let zoom_level := (pyGetStr settings "zoomLevel").getD "1.0"
    let capture_full_page := pyGetStr settings "captureFullPage" == some "true"
    let r := take_webpage_screenshot resample env url dimensions
      ⟨zoom_level, capture_full_page⟩
    match r.image with
    | none => .error "Screenshot generation failed: Failed to capture screenshot."
    | some image => .ok image

end URLRenderer

namespace WebsiteRenderer

/-- Environment of one `WebsiteRenderer.generate_image` invocation: the
outcome of the `requests.get` call (the response text, or a raised network
exception), the outcome of the single `_process_html` call (an
external-library HTML transformation per spec §1, which may raise), and
the formatted current datetime. -/
structure WebsiteEnv where
  fetchResult : Except String String
  processResult : Except String String
  now : String

/-- One invocation of the opaque HTML-to-image backend
(`BasePlugin.render_image`): the dimensions, template, stylesheet and
context entries passed to it. -/
structure RenderCall where
  dimensions : Nat × Nat
  template : String
  stylesheet : Option String
  processed_html : Option String
  context_url : Option String
  context_datetime : Option String
  error_message : Option String
  plugin_settings : Option Settings
deriving DecidableEq

/-- `_generate_error_image` (website_renderer.py lines 130-137): render the
`error.html` template with the error message, no stylesheet. -/
def generate_error_image (width height : Nat) (error_message : String) : RenderCall :=
  ⟨(width, height), "error.html", none, none, none, none, some error_message, none⟩

/-- `WebsiteRenderer.generate_image` (website_renderer.py lines 12-48):
read the URL with its default, parse and write back `content_scale`
(raising `ValueError` outside the try-block on a malformed value), prefix
`https://` when the URL has no http scheme, read the resolution (without
consulting orientation), then fetch, process and render — any exception in
the try-block is converted into an error-image render.  `.error` carries
the raised message and the settings mapping as the caller observes it
after the raise. -/
def generate_image (settings : Settings) (device : DeviceConfig)
    (env : WebsiteEnv) : Except (String × Settings) (RenderCall × Settings) :=
  let url0 := (pyGetStr settings "website_url").getD "https://example.com"
  match pyToInt ((Settings.get settings "content_scale").getD (Val.num 100)) with
  | none => .error ("invalid literal for int() with base 10", settings)
  | some n =>
    let settings1 := Settings.insert settings "content_scale" (Val.num n)
    let url := if strStartsWith url0 "http://" || strStartsWith url0 "https://" then url0
               else "https://" ++ url0
    let width := device.resolution.1
    let height := device.resolution.2
    match env.fetchResult with
    | .error e => .ok (generate_error_image width height e, settings1)
    | .ok _html =>
      match env.processResult with
      | .error e => .ok (generate_error_image width height e, settings1)
      | .ok processed_html =>
        .ok (⟨(width, height), "webpage_wrapper.html", some "webpage_style.css",
              some processed_html, some url, some env.now, none, some settings1⟩,
             settings1)

end WebsiteRenderer

/-! Evaluation lemmas: the value of `take_webpage_screenshot` on each
possible outcome of the capture environment. -/

/-- On a subprocess timeout the handler logs the exception and the call
returns no image; the transient file is left in its post-run state. -/
theorem shot_timeout_eq (resample : Img → Nat → Nat → List Nat)
    (env : URLRenderer.CaptureEnv) (url : String) (dims : Nat × Nat)
    (opts : URLRenderer.ShotOptions) (h : env.runOutcome = .timeout) :
    URLRenderer.take_webpage_screenshot resample env url dims opts =
      ⟨none,
       ["Failed to take webpage screenshot: Command timed out after 30 seconds"],
       env.fileExists,
       URLRenderer.screenshot_command url env.tmpPath dims.1 dims.2
         opts.zoom opts.full_page⟩ := by
  unfold URLRenderer.take_webpage_screenshot URLRenderer.take_webpage_screenshot_body
  simp only [h]
  rfl

/-- On a spawn failure the handler logs the exception and the call returns
no image. -/
theorem shot_spawn_eq (resample : Img → Nat → Nat → List Nat)
    (env : URLRenderer.CaptureEnv) (url : String) (dims : Nat × Nat)
    (opts : URLRenderer.ShotOptions) (m : String)
    (h : env.runOutcome = .spawnFailure m) :
    URLRenderer.take_webpage_screenshot resample env url dims opts =
      ⟨none, ["Failed to take webpage screenshot: " ++ m], env.fileExists,
       URLRenderer.screenshot_command url env.tmpPath dims.1 dims.2
         opts.zoom opts.full_page⟩ := by
  unfold URLRenderer.take_webpage_screenshot URLRenderer.take_webpage_screenshot_body
  simp only [h]
  rfl

/-- A completed process with nonzero exit code or missing output file:
stderr is logged, no image is returned, the transient file is left in its
post-run state. -/
theorem shot_fail_eq (resample : Img → Nat → Nat → List Nat)
    (env : URLRenderer.CaptureEnv) (url : String) (dims : Nat × Nat)
    (opts : URLRenderer.ShotOptions) (rc : Int) (stderr : String)
    (h : env.runOutcome = .completed rc stderr)
    (hf : rc ≠ 0 ∨ env.fileExists = false) :
    URLRenderer.take_webpage_screenshot resample env url dims opts =
      ⟨none, ["Failed to take screenshot:", stderr], env.fileExists,
       URLRenderer.screenshot_command url env.tmpPath dims.1 dims.2
         opts.zoom opts.full_page⟩ := by
  unfold URLRenderer.take_webpage_screenshot URLRenderer.take_webpage_screenshot_body
  simp only [h]
  rw [if_pos hf]

/-- A successful capture whose `Image.open` raises: the handler logs the
exception, no image is returned, the transient file is left on disk. -/
theorem shot_loadfail_eq (resample : Img → Nat → Nat → List Nat)
    (env : URLRenderer.CaptureEnv) (url : String) (dims : Nat × Nat)
    (opts : URLRenderer.ShotOptions) (stderr m : String)
    (h : env.runOutcome = .completed 0 stderr) (hex : env.fileExists = true)
    (hload : env.loadResult = .error m) :
    URLRenderer.take_webpage_screenshot resample env url dims opts =
      ⟨none, ["Failed to take webpage screenshot: " ++ m], env.fileExists,
       URLRenderer.screenshot_command url env.tmpPath dims.1 dims.2
         opts.zoom opts.full_page⟩ := by
  unfold URLRenderer.take_webpage_screenshot URLRenderer.take_webpage_screenshot_body
  simp only [h]
  rw [if_neg (by simp [hex]), hload]
  rfl

/-- The success path: exit code 0, output file present, image loads; the
image (resized for full-page captures) is returned and the transient file
is removed. -/
theorem shot_success_eq (resample : Img → Nat → Nat → List Nat)
    (env : URLRenderer.CaptureEnv) (url : String) (dims : Nat × Nat)
    (opts : URLRenderer.ShotOptions) (stderr : String) (img0 : Img)
    (h : env.runOutcome = .completed 0 stderr) (hex : env.fileExists = true)
    (hload : env.loadResult = .ok img0) :
    URLRenderer.take_webpage_screenshot resample env url dims opts =
      ⟨some (if opts.full_page then URLRenderer.resize_full_page resample img0 dims
             else img0), [], false,
       URLRenderer.screenshot_command url env.tmpPath dims.1 dims.2
         opts.zoom opts.full_page⟩ := by
  unfold URLRenderer.take_webpage_screenshot URLRenderer.take_webpage_screenshot_body
  simp only [h]
  rw [if_neg (by simp [hex]), hload]

/-- Inserting a key makes it readable with the inserted value. -/
theorem settings_get_insert (st : Settings) (k : String) (v : Val) :
    Settings.get (Settings.insert st k v) k = some v := by
  induction st with
  | nil => simp [Settings.insert, Settings.get]
  | cons p rest ih =>
    obtain ⟨k2, v2⟩ := p
    by_cases h : k2 = k
    · simp [Settings.insert, Settings.get, h]
    · simp [Settings.insert, Settings.get, h, ih]

/-- The only error messages `normalizeUrl` can raise. -/
theorem normalizeUrl_error_cases (o : Option String) (e : String)
    (h : normalizeUrl o = .error e) :
    e = "URL not provided." ∨ e = "Invalid URL provided." := by
  cases o with
  | none =>
    simp only [normalizeUrl, Except.error.injEq] at h
    exact Or.inl h.symm
  | some u =>
    by_cases hu : u = ""
    · subst hu
      rw [show normalizeUrl (some "") = .error "URL not provided." from rfl] at h
      simp only [Except.error.injEq] at h
      exact Or.inl h.symm
    · simp only [normalizeUrl, if_neg hu] at h
      by_cases h1 : (pyUrlparse u).scheme = "" ∨ (pyUrlparse u).netloc = ""
      · rw [if_pos h1] at h
        by_cases h2 : (pyUrlparse u).scheme = "" ∧ (pyUrlparse u).path ≠ ""
        · rw [if_pos h2] at h
          exact absurd h (by simp)
        · rw [if_neg h2] at h
          simp only [Except.error.injEq] at h
          exact Or.inr h.symm
      · rw [if_neg h1] at h
        exact absurd h (by simp)

/-- C1: the claim says the transient screenshot file never exists on disk
after the render call returns, on success and on every failure path.  The
code removes the file only on the success path: evaluated at a failing
input — the subprocess completes with exit code 1 while the transient file
(created by `tempfile` before the run) is present — the call returns no
image and leaves the file on disk; the success path, by contrast, does
remove it. -/
theorem c1_transient_file_left_on_failure :
    (URLRenderer.take_webpage_screenshot (fun _ _ _ => [])
        ⟨"/tmp/tmpshot.png", .completed 1 "chromium: renderer crash", true, .error ""⟩
        "https://example.com" (800, 480) ⟨"1.0", false⟩).image = none ∧
    (URLRenderer.take_webpage_screenshot (fun _ _ _ => [])
        ⟨"/tmp/tmpshot.png", .completed 1 "chromium: renderer crash", true, .error ""⟩
        "https://example.com" (800, 480) ⟨"1.0", false⟩).fileExistsAfter = true ∧
    (URLRenderer.take_webpage_screenshot (fun _ _ _ => [])
        ⟨"/tmp/tmpshot.png", .completed 0 "", true, .ok ⟨800, 480, []⟩⟩
        "https://example.com" (800, 480) ⟨"1.0", false⟩).fileExistsAfter = false := by
  decide

/-- C2: the capture step classifies success as exit code 0 together with an
existing output file: an image is returned only on that criterion; a
completed process failing it yields `None` with the process stderr logged;
a timeout or spawn failure yields `None` with a diagnostic logged; when
the criterion holds and the image loads, an image is returned; and every
exception raised inside the try-block is caught by the handler — the call
returns `None` with a diagnostic logged rather than propagating to the
facade. -/
theorem c2_capture_success_criterion (resample : Img → Nat → Nat → List Nat)
    (env : URLRenderer.CaptureEnv) (url : String) (dims : Nat × Nat)
    (opts : URLRenderer.ShotOptions) :
    (∀ img, (URLRenderer.take_webpage_screenshot resample env url dims opts).image = some img →
      ∃ stderr, env.runOutcome = .completed 0 stderr ∧ env.fileExists = true) ∧
    (∀ rc stderr, env.runOutcome = .completed rc stderr → rc ≠ 0 ∨ env.fileExists = false →
      (URLRenderer.take_webpage_screenshot resample env url dims opts).image = none ∧
      stderr ∈ (URLRenderer.take_webpage_screenshot resample env url dims opts).log) ∧
    (env.runOutcome = .timeout ∨ (∃ m, env.runOutcome = .spawnFailure m) →
      (URLRenderer.take_webpage_screenshot resample env url dims opts).image = none ∧
      (URLRenderer.take_webpage_screenshot resample env url dims opts).log ≠ []) ∧
    (∀ stderr img0, env.runOutcome = .completed 0 stderr → env.fileExists = true →
      env.loadResult = .ok img0 →
      (URLRenderer.take_webpage_screenshot resample env url dims opts).image ≠ none) ∧
    (∀ e fe, URLRenderer.take_webpage_screenshot_body resample env url dims opts = .error (e, fe) →
      (URLRenderer.take_webpage_screenshot resample env url dims opts).image = none ∧
      (URLRenderer.take_webpage_screenshot resample env url dims opts).log ≠ []) := by
  refine ⟨?_, ?_, ?_, ?_, ?_⟩
  · intro img himg
    cases hro : env.runOutcome with
    | timeout =>
      rw [shot_timeout_eq resample env url dims opts hro] at himg
      simp at himg
    | spawnFailure m =>
      rw [shot_spawn_eq resample env url dims opts m hro] at himg
      simp at himg
    | completed rc stderr =>
      by_cases hf : rc ≠ 0 ∨ env.fileExists = false
      · rw [shot_fail_eq resample env url dims opts rc stderr hro hf] at himg
        simp at himg
      · push_neg at hf
        have h0 : rc = 0 := hf.1
        have hex : env.fileExists = true := by
          cases hfe : env.fileExists
          · exact absurd hfe hf.2
          · rfl
        exact ⟨stderr, by rw [h0], hex⟩
  · intro rc stderr hro hf
    rw [shot_fail_eq resample env url dims opts rc stderr hro hf]
    exact ⟨rfl, by simp⟩
  · intro hout
    rcases hout with h | ⟨m, h⟩
    · rw [shot_timeout_eq resample env url dims opts h]
      exact ⟨rfl, by simp⟩
    · rw [shot_spawn_eq resample env url dims opts m h]
      exact ⟨rfl, by simp⟩
  · intro stderr img0 hro hex hload
    rw [shot_success_eq resample env url dims opts stderr img0 hro hex hload]
    simp
  · intro e fe hbody
    unfold URLRenderer.take_webpage_screenshot
    rw [hbody]
    exact ⟨rfl, by simp⟩

/-- C2 witness: a concrete failed capture (exit code 2, file present)
returns no image and logs the stderr text. -/
theorem c2_witness :
    (URLRenderer.take_webpage_screenshot (fun _ _ _ => [])
        ⟨"/tmp/t.png", .completed 2 "boom", true, .error ""⟩
        "https://example.com" (800, 480) ⟨"1.0", false⟩).image = none ∧
    "boom" ∈ (URLRenderer.take_webpage_screenshot (fun _ _ _ => [])
        ⟨"/tmp/t.png", .completed 2 "boom", true, .error ""⟩
        "https://example.com" (800, 480) ⟨"1.0", false⟩).log :=
  (c2_capture_success_criterion (fun _ _ _ => [])
      ⟨"/tmp/t.png", .completed 2 "boom", true, .error ""⟩
      "https://example.com" (800, 480) ⟨"1.0", false⟩).2.1 2 "boom" rfl
    (Or.inl (by decide))

/-- C3: for positive raw and target dimensions, the full-page resize scales
both axes by the single ratio `min(target_width / raw_width,
target_height / raw_height)` (truncated to integers), and the output fits
inside the target box — the image is never stretched to fill it. -/
theorem c3_full_page_resize_single_ratio (resample : Img → Nat → Nat → List Nat)
    (img : Img) (tw th : Nat) (hw : 0 < img.width) (hh : 0 < img.height)
    (htw : 0 < tw) (hth : 0 < th) :
    ∃ r : ℚ, r = min ((tw : ℚ) / (img.width : ℚ)) ((th : ℚ) / (img.height : ℚ)) ∧
      (URLRenderer.resize_full_page resample img (tw, th)).width =
        (⌊(img.width : ℚ) * r⌋).toNat ∧
      (URLRenderer.resize_full_page resample img (tw, th)).height =
        (⌊(img.height : ℚ) * r⌋).toNat ∧
      (URLRenderer.resize_full_page resample img (tw, th)).width ≤ tw ∧
      (URLRenderer.resize_full_page resample img (tw, th)).height ≤ th := by
  have hW0 : (0 : ℚ) < (img.width : ℚ) := by exact_mod_cast hw
  have hH0 : (0 : ℚ) < (img.height : ℚ) := by exact_mod_cast hh
  refine ⟨min ((tw : ℚ) / (img.width : ℚ)) ((th : ℚ) / (img.height : ℚ)),
    rfl, rfl, rfl, ?_, ?_⟩
  · have h1 : (img.width : ℚ) * min ((tw : ℚ) / (img.width : ℚ)) ((th : ℚ) / (img.height : ℚ)) ≤
        (img.width : ℚ) * ((tw : ℚ) / (img.width : ℚ)) :=
      mul_le_mul_of_nonneg_left (min_le_left _ _) hW0.le
    have h2 : (img.width : ℚ) * ((tw : ℚ) / (img.width : ℚ)) = (tw : ℚ) := by
      field_simp
    rw [h2] at h1
    have h3 : (⌊(img.width : ℚ) * min ((tw : ℚ) / (img.width : ℚ))
        ((th : ℚ) / (img.height : ℚ))⌋) ≤ (tw : ℤ) := by
      have := Int.floor_le_floor h1
      simpa using this
    exact Int.toNat_le.mpr h3
  · have h1 : (img.height : ℚ) * min ((tw : ℚ) / (img.width : ℚ)) ((th : ℚ) / (img.height : ℚ)) ≤
        (img.height : ℚ) * ((th : ℚ) / (img.height : ℚ)) :=
      mul_le_mul_of_nonneg_left (min_le_right _ _) hH0.le
    have h2 : (img.height : ℚ) * ((th : ℚ) / (img.height : ℚ)) = (th : ℚ) := by
      field_simp
    rw [h2] at h1
    have h3 : (⌊(img.height : ℚ) * min ((tw : ℚ) / (img.width : ℚ))
        ((th : ℚ) / (img.height : ℚ))⌋) ≤ (th : ℤ) := by
      have := Int.floor_le_floor h1
      simpa using this
    exact Int.toNat_le.mpr h3

/-- C3 witness: a 100x50 raw image resized into an 80x30 box fits the box. -/
theorem c3_witness :
    (URLRenderer.resize_full_page (fun _ _ _ => []) ⟨100, 50, []⟩ (80, 30)).width ≤ 80 ∧
    (URLRenderer.resize_full_page (fun _ _ _ => []) ⟨100, 50, []⟩ (80, 30)).height ≤ 30 := by
  obtain ⟨r, hr, hweq, hheq, hwle, hhle⟩ :=
    c3_full_page_resize_single_ratio (fun _ _ _ => []) ⟨100, 50, []⟩ 80 30
      (by decide) (by decide) (by decide) (by decide)
  exact ⟨hwle, hhle⟩

/-- C4: a subprocess timeout makes the render call return no image with a
diagnostic logged, and the facade raises the same single user-facing
`RuntimeError` it raises for any other process failure. -/
theorem c4_timeout_is_capture_failure (resample : Img → Nat → Nat → List Nat)
    (env : URLRenderer.CaptureEnv) (url : String) (dims : Nat × Nat)
    (opts : URLRenderer.ShotOptions) (h : env.runOutcome = .timeout) :
    (URLRenderer.take_webpage_screenshot resample env url dims opts).image = none ∧
    (URLRenderer.take_webpage_screenshot resample env url dims opts).log ≠ [] ∧
    (∀ settings device u, normalizeUrl (pyGetStr settings "url") = .ok u →
      URLRenderer.generate_image resample settings device env =
        .error "Screenshot generation failed: Failed to capture screenshot.") ∧
    (∀ (envB : URLRenderer.CaptureEnv) rc stderr,
      envB.runOutcome = .completed rc stderr → rc ≠ 0 →
      ∀ settings device u, normalizeUrl (pyGetStr settings "url") = .ok u →
        URLRenderer.generate_image resample settings device envB =
          URLRenderer.generate_image resample settings device env) := by
  refine ⟨?_, ?_, ?_, ?_⟩
  · rw [shot_timeout_eq resample env url dims opts h]
  · rw [shot_timeout_eq resample env url dims opts h]
    simp
  · intro settings device u hn
    simp only [URLRenderer.generate_image, hn]
    rw [shot_timeout_eq resample env u (URLRenderer.effective_dimensions device) _ h]
  · intro envB rc stderr hro hrc settings device u hn
    simp only [URLRenderer.generate_image, hn]
    rw [shot_fail_eq resample envB u (URLRenderer.effective_dimensions device) _
        rc stderr hro (Or.inl hrc)]
    rw [shot_timeout_eq resample env u (URLRenderer.effective_dimensions device) _ h]

/-- C4 witness: a concrete timeout produces no image and the facade error,
identical to the facade error of a concrete nonzero-exit failure. -/
theorem c4_witness :
    (URLRenderer.take_webpage_screenshot (fun _ _ _ => [])
        ⟨"/tmp/t.png", .timeout, false, .error ""⟩
        "https://example.com" (800, 480) ⟨"1.0", false⟩).image = none ∧
    URLRenderer.generate_image (fun _ _ _ => [])
        [("url", Val.str "https://example.com")] ⟨(800, 480), none⟩
        ⟨"/tmp/t.png", .timeout, false, .error ""⟩ =
      .error "Screenshot generation failed: Failed to capture screenshot." := by
  have h := c4_timeout_is_capture_failure (fun _ _ _ => [])
    ⟨"/tmp/t.png", .timeout, false, .error ""⟩
    "https://example.com" (800, 480) ⟨"1.0", false⟩ rfl
  exact ⟨h.1, h.2.2.1 [("url", Val.str "https://example.com")] ⟨(800, 480), none⟩
    "https://example.com" rfl⟩

/-- C5: URL normalization at the facade: an absent or empty url setting
raises the configuration error `URL not provided.`; a string whose parse
has no scheme but a nonempty path is rewritten with `https://` prepended;
a string whose parse has a scheme but no netloc raises
`Invalid URL provided.`. -/
theorem c5_url_normalization :
    normalizeUrl none = .error "URL not provided." ∧
    normalizeUrl (some "") = .error "URL not provided." ∧
    (∀ u, (pyUrlparse u).scheme = "" → (pyUrlparse u).path ≠ "" →
      normalizeUrl (some u) = .ok ("https://" ++ u)) ∧
    (∀ u, (pyUrlparse u).scheme ≠ "" → (pyUrlparse u).netloc = "" →
      normalizeUrl (some u) = .error "Invalid URL provided.") := by
  refine ⟨rfl, rfl, ?_, ?_⟩
  · intro u hs hp
    have hu : u ≠ "" := by
      intro he
      subst he
      exact hp rfl
    simp only [normalizeUrl, if_neg hu]
    rw [if_pos (Or.inl hs), if_pos ⟨hs, hp⟩]
  · intro u hs hn
    have hu : u ≠ "" := by
      intro he
      subst he
      exact hs rfl
    simp only [normalizeUrl, if_neg hu]
    rw [if_pos (Or.inr hn), if_neg (fun hc => hs hc.1)]

/-- C5 witness: `example.com` is rewritten to `https://example.com`; the
empty string is a configuration error; `http://` fails validation. -/
theorem c5_witness :
    normalizeUrl (some "example.com") = .ok "https://example.com" ∧
    normalizeUrl (some "") = .error "URL not provided." ∧
    normalizeUrl (some "http://") = .error "Invalid URL provided." :=
  ⟨c5_url_normalization.2.2.1 "example.com" (by decide) (by decide),
   c5_url_normalization.2.1,
   c5_url_normalization.2.2.2 "http://" (by decide) (by decide)⟩

/-- C6 counterexample: the website renderer reads only `get_resolution()` —
with base resolution (800,480) and orientation `"vertical"` it hands the
render backend the dimensions (800,480), not the swapped (480,800) the
claim requires of every renderer variant. -/
theorem c6_website_ignores_orientation :
    WebsiteRenderer.generate_image [] ⟨(800, 480), some "vertical"⟩
        ⟨Except.ok "x", Except.ok "y", "t"⟩ =
      Except.ok (⟨(800, 480), "webpage_wrapper.html", some "webpage_style.css", some "y",
            some "https://example.com", some "t", none,
            some [("content_scale", Val.num 100)]⟩,
           [("content_scale", Val.num 100)]) ∧
    ((800, 480) : Nat × Nat) ≠ ((480, 800) : Nat × Nat) :=
  ⟨rfl, by decide⟩

/-- C6 amended: the screenshot (URL) renderer swaps the resolution pair
when the orientation is `"vertical"`; the website renderer passes the base
resolution to the render backend unchanged, ignoring orientation. -/
theorem c6_orientation_swap (device : DeviceConfig) :
    (device.orientation = some "vertical" →
      URLRenderer.effective_dimensions device =
        (device.resolution.2, device.resolution.1)) ∧
    (∀ (settings : Settings) (env : WebsiteRenderer.WebsiteEnv)
        (call : WebsiteRenderer.RenderCall) (st : Settings),
      WebsiteRenderer.generate_image settings device env = .ok (call, st) →
      call.dimensions = device.resolution) := by
  constructor
  · intro h
    simp [URLRenderer.effective_dimensions, h]
  · intro settings env call st h
    cases hp : pyToInt ((Settings.get settings "content_scale").getD (Val.num 100)) with
    | none =>
      simp only [WebsiteRenderer.generate_image, hp] at h
      simp at h
    | some n =>
      simp only [WebsiteRenderer.generate_image, hp] at h
      cases hf : env.fetchResult with
      | error e =>
        simp only [hf, WebsiteRenderer.generate_error_image, Except.ok.injEq,
          Prod.mk.injEq] at h
        obtain ⟨hcall, -⟩ := h
        rw [← hcall]
      | ok html =>
        simp only [hf] at h
        cases hpr : env.processResult with
        | error e =>
          simp only [hpr, WebsiteRenderer.generate_error_image, Except.ok.injEq,
            Prod.mk.injEq] at h
          obtain ⟨hcall, -⟩ := h
          rw [← hcall]
        | ok ph =>
          simp only [hpr, Except.ok.injEq, Prod.mk.injEq] at h
          obtain ⟨hcall, -⟩ := h
          rw [← hcall]

/-- C6 witness: the URL renderer at (800,480) vertical targets (480,800);
the website renderer's backend call at (800,480) keeps (800,480). -/
theorem c6_witness :
    URLRenderer.effective_dimensions ⟨(800, 480), some "vertical"⟩ = (480, 800) ∧
    WebsiteRenderer.RenderCall.dimensions
        ⟨(800, 480), "webpage_wrapper.html", some "webpage_style.css", some "y",
         some "https://example.com", some "t", none,
         some [("content_scale", Val.num 100)]⟩ = (800, 480) := by
  constructor
  · exact (c6_orientation_swap ⟨(800, 480), some "vertical"⟩).1 rfl
  · exact (c6_orientation_swap ⟨(800, 480), none⟩).2 []
      ⟨Except.ok "x", Except.ok "y", "t"⟩ _ _ rfl

/-- C7 counterexample: at zoom "0.5" with base (800,480) in fixed-viewport
mode the command requests `--window-size=800,480`, not the
`floor(base/zoom) = (1600,960)` viewport the claim requires. -/
theorem c7_viewport_not_scaled_by_zoom :
    "--window-size=800,480" ∈ (URLRenderer.take_webpage_screenshot (fun _ _ _ => [])
        ⟨"/tmp/s.png", .completed 0 "", true, .ok ⟨800, 480, []⟩⟩
        "https://example.com" (800, 480) ⟨"0.5", false⟩).command ∧
    "--window-size=1600,960" ∉ (URLRenderer.take_webpage_screenshot (fun _ _ _ => [])
        ⟨"/tmp/s.png", .completed 0 "", true, .ok ⟨800, 480, []⟩⟩
        "https://example.com" (800, 480) ⟨"0.5", false⟩).command := by
  decide

/-- C7 amended: in fixed-viewport (non-full-page) mode the capture viewport
requested from the browser equals the effective display dimensions
themselves for every zoom — the zoom is passed as
`--force-device-scale-factor` — and post-processing leaves the captured
image unchanged (pixel-identical), in particular at zoom 1.0. -/
theorem c7_fixed_viewport_capture (resample : Img → Nat → Nat → List Nat)
    (env : URLRenderer.CaptureEnv) (url : String) (w h : Nat)
    (zoom stderr : String) (img0 : Img)
    (hrun : env.runOutcome = .completed 0 stderr)
    (hex : env.fileExists = true) (hload : env.loadResult = .ok img0) :
    ("--window-size=" ++ toString w ++ "," ++ toString h) ∈
      (URLRenderer.take_webpage_screenshot resample env url (w, h) ⟨zoom, false⟩).command ∧
    ("--force-device-scale-factor=" ++ zoom) ∈
      (URLRenderer.take_webpage_screenshot resample env url (w, h) ⟨zoom, false⟩).command ∧
    (URLRenderer.take_webpage_screenshot resample env url (w, h) ⟨zoom, false⟩).image =
      some img0 := by
  rw [shot_success_eq resample env url (w, h) ⟨zoom, false⟩ stderr img0 hrun hex hload]
  refine ⟨?_, ?_, ?_⟩
  · simp [URLRenderer.screenshot_command]
  · simp [URLRenderer.screenshot_command]
  · simp

/-- C7 witness: a concrete fixed-viewport capture at zoom "1.0" requests
window-size 800,480 and returns the loaded image bit-for-bit. -/
theorem c7_witness :
    "--window-size=800,480" ∈ (URLRenderer.take_webpage_screenshot (fun _ _ _ => [])
        ⟨"/tmp/s.png", .completed 0 "", true, .ok ⟨1000, 700, [1, 2]⟩⟩
        "https://example.com" (800, 480) ⟨"1.0", false⟩).command ∧
    (URLRenderer.take_webpage_screenshot (fun _ _ _ => [])
        ⟨"/tmp/s.png", .completed 0 "", true, .ok ⟨1000, 700, [1, 2]⟩⟩
        "https://example.com" (800, 480) ⟨"1.0", false⟩).image =
      some ⟨1000, 700, [1, 2]⟩ := by
  have h := c7_fixed_viewport_capture (fun _ _ _ => [])
    ⟨"/tmp/s.png", .completed 0 "", true, .ok ⟨1000, 700, [1, 2]⟩⟩
    "https://example.com" 800 480 "1.0" "" ⟨1000, 700, [1, 2]⟩ rfl rfl rfl
  exact ⟨by decide, h.2.2⟩

/-- C8 counterexample: on a fetch failure the website renderer returns a
rendered error image (template `error.html`) — an image IS returned on
failure, contradicting the claim that no image at all is yielded. -/
theorem c8_website_failure_returns_image :
    WebsiteRenderer.generate_image [("content_scale", Val.str "150")] ⟨(800, 480), none⟩
        ⟨Except.error "connection refused", Except.ok "", ""⟩ =
      Except.ok (WebsiteRenderer.generate_error_image 800 480 "connection refused",
           [("content_scale", Val.num 150)]) ∧
    (WebsiteRenderer.generate_error_image 800 480 "connection refused").template =
      "error.html" :=
  ⟨rfl, rfl⟩

/-- C8 amended: the screenshot renderer surfaces every failure as one of
three user-facing `RuntimeError` messages and returns no image on failure;
the website renderer instead catches failures and returns an error image
rendered from `error.html` with the failure message. -/
theorem c8_failure_surfacing :
    (∀ (resample : Img → Nat → Nat → List Nat) (settings : Settings)
        (device : DeviceConfig) (env : URLRenderer.CaptureEnv) (e : String),
      URLRenderer.generate_image resample settings device env = .error e →
      e = "URL not provided." ∨ e = "Invalid URL provided." ∨
        e = "Screenshot generation failed: Failed to capture screenshot.") ∧
    (∀ (settings : Settings) (device : DeviceConfig) (env : WebsiteRenderer.WebsiteEnv)
        (msg : String) (n : Int),
      env.fetchResult = .error msg →
      pyToInt ((Settings.get settings "content_scale").getD (Val.num 100)) = some n →
      WebsiteRenderer.generate_image settings device env =
        .ok (WebsiteRenderer.generate_error_image device.resolution.1
               device.resolution.2 msg,
             Settings.insert settings "content_scale" (Val.num n))) := by
  constructor
  · intro resample settings device env e h
    cases hn : normalizeUrl (pyGetStr settings "url") with
    | error e2 =>
      simp only [URLRenderer.generate_image, hn, Except.error.injEq] at h
      subst h
      rcases normalizeUrl_error_cases _ _ hn with h1 | h1
      · exact Or.inl h1
      · exact Or.inr (Or.inl h1)
    | ok u =>
      simp only [URLRenderer.generate_image, hn] at h
      cases himg : (URLRenderer.take_webpage_screenshot resample env u
          (URLRenderer.effective_dimensions device)
          ⟨(pyGetStr settings "zoomLevel").getD "1.0",
           pyGetStr settings "captureFullPage" == some "true"⟩).image with
      | none =>
        rw [himg] at h
        exact Or.inr (Or.inr (Except.error.inj h).symm)
      | some img =>
        rw [himg] at h
        exact Except.noConfusion h
  · intro settings device env msg n hf hp
    simp only [WebsiteRenderer.generate_image, hp, hf]

/-- C8 witness: a concrete timeout surfaces the single facade error, and a
concrete website fetch failure yields the error-image render call. -/
theorem c8_witness :
    ("Screenshot generation failed: Failed to capture screenshot." = "URL not provided." ∨
      "Screenshot generation failed: Failed to capture screenshot." =
        "Invalid URL provided." ∨
      "Screenshot generation failed: Failed to capture screenshot." =
        "Screenshot generation failed: Failed to capture screenshot.") ∧
    WebsiteRenderer.generate_image [("content_scale", Val.str "150")] ⟨(800, 480), none⟩
        ⟨Except.error "boom", Except.ok "", ""⟩ =
      Except.ok (WebsiteRenderer.generate_error_image 800 480 "boom",
           [("content_scale", Val.num 150)]) := by
  constructor
  · exact c8_failure_surfacing.1 (fun _ _ _ => []) [("url", Val.str "https://example.com")]
      ⟨(800, 480), none⟩ ⟨"/tmp/t.png", .timeout, true, .error ""⟩ _ rfl
  · exact c8_failure_surfacing.2 [("content_scale", Val.str "150")] ⟨(800, 480), none⟩
      ⟨Except.error "boom", Except.ok "", ""⟩ "boom" 150 rfl (by decide)

/-- C9 counterexample: the concrete command built for a capture carries no
user-agent flag anywhere, contradicting the claimed fixed mobile
user-agent argument. -/
theorem c9_no_user_agent_flag :
    URLRenderer.screenshot_command "https://example.com" "/tmp/s.png" 800 480 "1.0" false =
      ["chromium-browser", "https://example.com", "--headless=old",
       "--screenshot=/tmp/s.png", "--window-size=800,480", "--no-sandbox",
       "--disable-gpu", "--disable-software-rasterizer", "--disable-dev-shm-usage",
       "--hide-scrollbars", "--force-device-scale-factor=1.0"] ∧
    ((URLRenderer.screenshot_command "https://example.com" "/tmp/s.png" 800 480 "1.0" false).all
        (fun a => !(strStartsWith a "--user-agent"))) = true :=
  ⟨rfl, by decide⟩

/-- C9 amended: the command has the fixed shape binary, URL, headless flag,
screenshot path, window size, sandbox/GPU-disabling flags, hide-scrollbars
and device-scale-factor, with `--force-viewport-sizing` appended exactly
when full-page capture is requested and nothing else — in particular no
user-agent flag — and every capture invocation runs exactly this command. -/
theorem c9_command_shape (url path : String) (w h : Nat) (zoom : String) (fp : Bool) :
    URLRenderer.screenshot_command url path w h zoom fp =
      ["chromium-browser", url, "--headless=old", "--screenshot=" ++ path,
       "--window-size=" ++ toString w ++ "," ++ toString h, "--no-sandbox",
       "--disable-gpu", "--disable-software-rasterizer", "--disable-dev-shm-usage",
       "--hide-scrollbars", "--force-device-scale-factor=" ++ zoom] ++
      (if fp then ["--force-viewport-sizing"] else []) ∧
    (fp = true →
      "--force-viewport-sizing" ∈ URLRenderer.screenshot_command url path w h zoom fp) ∧
    (fp = false → (URLRenderer.screenshot_command url path w h zoom fp).length = 11) ∧
    (∀ a, a ∈ URLRenderer.screenshot_command url path w h zoom fp →
      a = "chromium-browser" ∨ a = url ∨ a = "--headless=old" ∨
      a = "--screenshot=" ++ path ∨
      a = "--window-size=" ++ toString w ++ "," ++ toString h ∨ a = "--no-sandbox" ∨
      a = "--disable-gpu" ∨ a = "--disable-software-rasterizer" ∨
      a = "--disable-dev-shm-usage" ∨ a = "--hide-scrollbars" ∨
      a = "--force-device-scale-factor=" ++ zoom ∨ a = "--force-viewport-sizing") ∧
    (∀ (resample : Img → Nat → Nat → List Nat) (env : URLRenderer.CaptureEnv)
        (u : String) (dims : Nat × Nat) (opts : URLRenderer.ShotOptions),
      (URLRenderer.take_webpage_screenshot resample env u dims opts).command =
        URLRenderer.screenshot_command u env.tmpPath dims.1 dims.2
          opts.zoom opts.full_page) := by
  refine ⟨rfl, ?_, ?_, ?_, ?_⟩
  · intro hfp
    subst hfp
    simp [URLRenderer.screenshot_command]
  · intro hfp
    subst hfp
    rfl
  · intro a ha
    cases fp <;>
      simp only [URLRenderer.screenshot_command, List.mem_append, List.mem_cons,
        List.not_mem_nil, or_false, Bool.false_eq_true, if_false, if_true,
        List.append_nil] at ha <;>
      tauto
  · intro resample env u dims opts
    cases hro : env.runOutcome with
    | timeout => rw [shot_timeout_eq resample env u dims opts hro]
    | spawnFailure m => rw [shot_spawn_eq resample env u dims opts m hro]
    | completed rc stderr =>
      by_cases hf : rc ≠ 0 ∨ env.fileExists = false
      · rw [shot_fail_eq resample env u dims opts rc stderr hro hf]
      · push_neg at hf
        have h0 : rc = 0 := hf.1
        have hex : env.fileExists = true := by
          cases hfe : env.fileExists
          · exact absurd hfe hf.2
          · rfl
        subst h0
        cases hl : env.loadResult with
        | error m => rw [shot_loadfail_eq resample env u dims opts stderr m hro hex hl]
        | ok img0 => rw [shot_success_eq resample env u dims opts stderr img0 hro hex hl]

/-- C9 witness: with full-page requested the viewport-sizing flag is in the
command; without it the command has exactly its eleven fixed arguments. -/
theorem c9_witness :
    "--force-viewport-sizing" ∈
      URLRenderer.screenshot_command "https://example.com" "/tmp/s.png" 800 480 "1.0" true ∧
    (URLRenderer.screenshot_command "https://example.com" "/tmp/s.png" 800 480 "1.0"
        false).length = 11 := by
  constructor
  · exact (c9_command_shape "https://example.com" "/tmp/s.png" 800 480 "1.0" true).2.1 rfl
  · exact (c9_command_shape "https://example.com" "/tmp/s.png" 800 480 "1.0" false).2.2.1 rfl

/-- C10 counterexample: with `content_scale = "abc"` the call raises
`ValueError` from `int()` before any mutation — the caller's mapping still
holds the original string, so not every call mutates the mapping. -/
theorem c10_unparsable_scale_raises :
    WebsiteRenderer.generate_image [("content_scale", Val.str "abc")] ⟨(800, 480), none⟩
        ⟨Except.ok "", Except.ok "", ""⟩ =
      Except.error ("invalid literal for int() with base 10",
        [("content_scale", Val.str "abc")]) ∧
    Settings.get [("content_scale", Val.str "abc")] "content_scale" =
      some (Val.str "abc") :=
  ⟨rfl, rfl⟩

/-- C10 amended: whenever `content_scale` is absent or parses as an
integer, `generate_image` overwrites it with the parsed integer (default
100 when absent) before rendering, so the mapping the caller observes
afterwards differs whenever the entry was absent or a string; a
non-parsable string instead raises `ValueError` before any mutation. -/
theorem c10_content_scale_mutation (settings : Settings) (device : DeviceConfig)
    (env : WebsiteRenderer.WebsiteEnv) :
    (∀ n : Int,
      pyToInt ((Settings.get settings "content_scale").getD (Val.num 100)) = some n →
      (∃ call, WebsiteRenderer.generate_image settings device env =
          .ok (call, Settings.insert settings "content_scale" (Val.num n))) ∧
      Settings.get (Settings.insert settings "content_scale" (Val.num n))
          "content_scale" = some (Val.num n) ∧
      ((Settings.get settings "content_scale" = none ∨
          (∃ s, Settings.get settings "content_scale" = some (Val.str s))) →
        Settings.insert settings "content_scale" (Val.num n) ≠ settings) ∧
      (Settings.get settings "content_scale" = none → n = 100)) ∧
    (pyToInt ((Settings.get settings "content_scale").getD (Val.num 100)) = none →
      WebsiteRenderer.generate_image settings device env =
        .error ("invalid literal for int() with base 10", settings)) := by
  constructor
  · intro n hn
    refine ⟨?_, settings_get_insert settings "content_scale" (Val.num n), ?_, ?_⟩
    · simp only [WebsiteRenderer.generate_image, hn]
      cases hf : env.fetchResult with
      | error e => exact ⟨_, rfl⟩
      | ok html =>
        cases hpr : env.processResult with
        | error e => exact ⟨_, rfl⟩
        | ok ph => exact ⟨_, rfl⟩
    · intro hold heq
      have hget := congrArg (fun st => Settings.get st "content_scale") heq
      simp only at hget
      rw [settings_get_insert] at hget
      rcases hold with h0 | ⟨s, h0⟩
      · rw [h0] at hget
        exact Option.noConfusion hget
      · rw [h0] at hget
        simp at hget
    · intro h0
      rw [h0] at hn
      simp only [Option.getD_none, pyToInt, Option.some.injEq] at hn
      exact hn.symm
  · intro hn
    simp only [WebsiteRenderer.generate_image, hn]

/-- C10 witness: with `content_scale = "150"` the call succeeds and the
mapping the caller observes afterwards holds the integer 150 and differs
from the mapping passed in. -/
theorem c10_witness :
    (∃ call, WebsiteRenderer.generate_image [("content_scale", Val.str "150")]
        ⟨(800, 480), none⟩ ⟨Except.ok "x", Except.ok "y", "t"⟩ =
        .ok (call, [("content_scale", Val.num 150)])) ∧
    ([("content_scale", Val.num 150)] : Settings) ≠ [("content_scale", Val.str "150")] := by
  have h := (c10_content_scale_mutation [("content_scale", Val.str "150")]
    ⟨(800, 480), none⟩ ⟨Except.ok "x", Except.ok "y", "t"⟩).1 150 (by decide)
  exact ⟨h.1, h.2.2.1 (Or.inr ⟨"150", rfl⟩)⟩

end InkyPi
